import Mathlib

/-!
Verification development for the neofs-testcases repository.

The embedded code comes from two Python source files:
* `robot/resources/lib/python_keywords/storage_policy.py` — the
  copy-verification scans `get_simple_object_copies`,
  `get_complex_object_copies`, `get_nodes_with_object`,
  `get_nodes_without_object`;
* `pytest_tests/testsuites/session_token/test_object_session_token.py` —
  the UN-LOCODE group derivation and the placement-policy string; the
  session-authorization guard exercised by this test is not part of the
  repository sources and is modelled from the specification.

External collaborators (`neofs_verbs.head_object`,
`complex_object_actions.get_last_object`, the network map `NEOFS_NETMAP`)
are passed as parameters: a scan is a pure function of the per-node probe
outcome function and the node list.
-/

namespace NeofsTestcases

/-- A storage-node identifier / endpoint, as the Python code handles it. -/
abbrev Node := String

/-- Error statuses distinguished by `grpc_responses.error_matches_status`:
the scans only ever test an error against `OBJECT_NOT_FOUND`, so the model
keeps that status and an opaque catch-all. -/
inductive Status where
  | object_not_found
  | other (s : String)
deriving DecidableEq, Repr

/-- A Python exception as seen by the scans: the status class its text
matches, plus its message. -/
structure Err where
  status : Status
  msg : String
deriving DecidableEq, Repr

/-- `grpc_responses.OBJECT_NOT_FOUND` (module not under src/; the constant
is the status pattern for a "not found" object error). -/
def OBJECT_NOT_FOUND : Status := Status.object_not_found

/-- Modelled from the spec: `grpc_responses.error_matches_status` (module
not under src/) decides whether an exception is classified as a given
status — "a probe that raises a 'not found' condition". -/
def error_matches_status (e : Err) (s : Status) : Bool :=
  e.status == s

/-- Object metadata as the scans see it: a Python dict (the parsed HEAD
response header). Only `None`-ness and truthiness are inspected. -/
abbrev Dict := List (String × String)

/-- Python truthiness of an `Optional[dict]` value: `None` and the empty
dict are falsy, a non-empty dict is truthy (this is what
`if response:` tests in `get_simple_object_copies`). -/
def py_truthy : Option Dict → Bool
  | none => false
  | some d => !d.isEmpty

/-- Outcome of one `neofs_verbs.head_object(..., is_direct=True)` call:
either a returned value (possibly `None`) or a raised exception. -/
inductive HeadResult where
  | ret (r : Option Dict)
  | exc (e : Err)
deriving DecidableEq, Repr

/-- A probe outcome that is an exception not classified as
`OBJECT_NOT_FOUND`: the only kind of outcome `get_nodes_without_object`
turns into a hard error. -/
def is_hard_error : HeadResult → Bool
  | HeadResult.ret _ => false
  | HeadResult.exc e => !error_matches_status e OBJECT_NOT_FOUND

/-- `storage_policy.get_simple_object_copies`: loop over the netmap; a
HEAD call that returns a truthy response counts as one copy; any
exception is caught and the loop continues. -/
def get_simple_object_copies (probe : Node → HeadResult) : List Node → Nat
  | [] => 0
  | node :: rest =>
    match probe node with
    | HeadResult.ret r =>
      if py_truthy r then get_simple_object_copies probe rest + 1
      else get_simple_object_copies probe rest
    | HeadResult.exc _ => get_simple_object_copies probe rest

/-- The nodes `get_simple_object_copies` sends a HEAD probe to, in loop
order: the probe is the first statement of the loop body and every
exception is caught, so every iteration issues exactly one probe. -/
def simple_copies_trace (probe : Node → HeadResult) : List Node → List Node
  | [] => []
  | node :: rest =>
    match probe node with
    | HeadResult.ret _ => node :: simple_copies_trace probe rest
    | HeadResult.exc _ => node :: simple_copies_trace probe rest

/-- The `nodes_to_search` computation of `get_nodes_with_object`: the full
netmap, unless `skip_nodes` is truthy (a non-`None`, non-empty list), in
which case the netmap with the skipped nodes removed. -/
def nodes_to_search (netmap : List Node) : Option (List Node) → List Node
  | none => netmap
  | some sk => if sk.isEmpty then netmap else netmap.filter (fun node => decide (node ∉ sk))

/-- The probing loop of `get_nodes_with_object`: a node whose HEAD call
returns a non-`None` response is appended; any exception is caught and
the loop continues. -/
def nodes_with_scan (probe : Node → HeadResult) : List Node → List Node
  | [] => []
  | node :: rest =>
    match probe node with
    | HeadResult.ret r =>
      if r.isSome then node :: nodes_with_scan probe rest
      else nodes_with_scan probe rest
    | HeadResult.exc _ => nodes_with_scan probe rest

/-- `storage_policy.get_nodes_with_object`. -/
def get_nodes_with_object (probe : Node → HeadResult) (netmap : List Node)
    (skip_nodes : Option (List Node)) : List Node :=
  nodes_with_scan probe (nodes_to_search netmap skip_nodes)

/-- The nodes `get_nodes_with_object` sends a HEAD probe to, in loop
order: every node of `nodes_to_search`, since every exception is caught. -/
def nodes_with_trace (probe : Node → HeadResult) (netmap : List Node)
    (skip_nodes : Option (List Node)) : List Node :=
  simple_copies_trace probe (nodes_to_search netmap skip_nodes)

/-- The exception `get_nodes_without_object` raises on a probe failure not
classified as `OBJECT_NOT_FOUND`:
`raise Exception(f"Got error {err} on head object command") from err`. -/
def head_command_error (e : Err) : Err :=
  { status := Status.other "Exception",
    msg := "Got error " ++ e.msg ++ " on head object command" }

/-- `storage_policy.get_nodes_without_object`: a node whose HEAD call
returns `None`, or raises an error matching `OBJECT_NOT_FOUND`, is
appended; any other exception aborts the whole scan by re-raising. -/
def get_nodes_without_object (probe : Node → HeadResult) :
    List Node → Except Err (List Node)
  | [] => Except.ok []
  | node :: rest =>
    match probe node with
    | HeadResult.ret r =>
      match get_nodes_without_object probe rest with
      | Except.ok l => Except.ok (if r.isNone then node :: l else l)
      | Except.error e => Except.error e
    | HeadResult.exc e =>
      if error_matches_status e OBJECT_NOT_FOUND then
        match get_nodes_without_object probe rest with
        | Except.ok l => Except.ok (node :: l)
        | Except.error e2 => Except.error e2
      else Except.error (head_command_error e)

/-- The nodes `get_nodes_without_object` sends a HEAD probe to, in loop
order: probing stops at the first node whose probe raises an error not
matching `OBJECT_NOT_FOUND`, because that exception propagates. -/
def nodes_without_trace (probe : Node → HeadResult) : List Node → List Node
  | [] => []
  | node :: rest =>
    match probe node with
    | HeadResult.ret _ => node :: nodes_without_trace probe rest
    | HeadResult.exc e =>
      if error_matches_status e OBJECT_NOT_FOUND then
        node :: nodes_without_trace probe rest
      else [node]

/-- The `AssertionError` of `get_complex_object_copies` when no last
object is found. -/
def assertion_error (cid oid : String) : Err :=
  { status := Status.other "AssertionError",
    msg := "No Last Object for " ++ cid ++ "/" ++ oid ++
      " found among all Storage Nodes" }

/-- `storage_policy.get_complex_object_copies`: resolve the last part via
`complex_object_actions.get_last_object` (external collaborator, passed
as a parameter), `assert last_oid` (fails on `None` and on a falsy empty
id), then count the simple-object copies of the last part. -/
def get_complex_object_copies (get_last_object : String → Option String)
    (probe : String → Node → HeadResult) (netmap : List Node)
    (cid oid : String) : Except Err Nat :=
  let last_oid := get_last_object oid
  match last_oid with
  | none => Except.error (assertion_error cid oid)
  | some l =>
    if l = "" then Except.error (assertion_error cid oid)
    else Except.ok (get_simple_object_copies (probe l) netmap)

/-- Helper for `py_split`: accumulate the current word (reversed) while
walking the characters; a whitespace character ends the current word,
and runs of whitespace produce no empty words. -/
def words_aux (cur : List Char) : List Char → List String
  | [] => if cur.isEmpty then [] else [String.mk cur.reverse]
  | c :: cs =>
    if c.isWhitespace then
      if cur.isEmpty then words_aux [] cs
      else String.mk cur.reverse :: words_aux [] cs
    else words_aux (c :: cur) cs

/-- Python `str.split()` with no argument, as used by
`un_locode.split()` in `test_object_session_token`: split on runs of
whitespace and discard empty pieces. -/
def py_split (s : String) : List String :=
  words_aux [] s.data

/-- The UN-LOCODE group derivation of `test_object_session_token`:
`locode = "SPB" if un_locode == "RU LED" else un_locode.split()[1]`.
The Python indexing `[1]` raises `IndexError` when fewer than two
tokens exist, modelled by `Option`. -/
def locode_group (un_locode : String) : Option String :=
  if un_locode = "RU LED" then some "SPB" else (py_split un_locode).get? 1

/-- The placement-policy f-string built by `test_object_session_token`,
three adjacent literals concatenated, with `locode` the derived group
name and `un_locode` the node attribute value. -/
def placement_policy (locode un_locode : String) : String :=
  ("REP 1 IN LOC_" ++ locode ++ "_PLACE CBF 1 SELECT 1 FROM LOC_" ++ locode ++ " ")
    ++ ("AS LOC_" ++ locode ++ "_PLACE FILTER \"UN-LOCODE\" ")
    ++ ("EQ \"" ++ un_locode ++ "\" AS LOC_" ++ locode)

/-- Modelled from the spec: the grammar of placement-policy text,
`REP <n> IN <group> CBF <m> SELECT <k> FROM <group> AS <group>
FILTER "<attr>" EQ "<value>" AS <group>`, rendered from its parts. -/
def policy_grammar_render (n : Nat) (inGroup : String) (m k : Nat)
    (fromGroup asGroup1 attr value asGroup2 : String) : String :=
  "REP " ++ toString n ++ " IN " ++ inGroup ++ " CBF " ++ toString m ++
    " SELECT " ++ toString k ++ " FROM " ++ fromGroup ++ " AS " ++ asGroup1 ++
    " FILTER \"" ++ attr ++ "\" EQ \"" ++ value ++ "\" AS " ++ asGroup2

/-- The object operations the session test exercises. -/
inductive Operation where
  | put
  | delete
  | head
deriving DecidableEq, Repr

/-- Denial reasons of the session-authorization guard. -/
inductive DenyReason where
  | expired
  | wrongOperation
  | sessionNotFound
deriving DecidableEq, Repr

/-- Result of an authorization decision. -/
inductive AuthResult where
  | allow
  | deny (reason : DenyReason)
deriving DecidableEq, Repr

/-- An object address `{container id, object id}`. -/
structure ObjectAddress where
  cid : String
  oid : String
deriving DecidableEq, Repr

/-- A session token: issuer identity, validity window, authorized
operation set, and the node it was created against. -/
structure SessionToken where
  issuer : String
  validFrom : Nat
  validTo : Nat
  ops : List Operation
  origin : Node
deriving DecidableEq, Repr

/-- Modelled from the spec: the node-local token table of the
session-authorization guard is missing from src/ (only the test that
exercises it is present). Token knowledge never propagates beyond the
node the token was created against, so a node holds a record of a token
exactly when it is the token's origin node. -/
def has_token_record (node : Node) (t : SessionToken) : Bool :=
  node == t.origin

/-- Modelled from the spec: the session-authorization guard
`Authorize(token, node, op, object, now)` is missing from src/ (only
`test_object_session_token` exercising it is present). Rules in order:
deny `Expired` outside the validity window, deny `WrongOperation` if the
operation is not authorized, deny `SessionNotFound` if the receiving
node has no record of the token, otherwise allow. Container placement
membership plays no part in the decision. -/
def Authorize (t : SessionToken) (node : Node) (op : Operation)
    (_obj : ObjectAddress) (now : Nat) : AuthResult :=
  if now < t.validFrom ∨ t.validTo < now then AuthResult.deny DenyReason.expired
  else if !(t.ops.contains op) then AuthResult.deny DenyReason.wrongOperation
  else if !(has_token_record node t) then AuthResult.deny DenyReason.sessionNotFound
  else AuthResult.allow

/-! ## Per-node classification predicates

Each scan classifies every probed node by its own probe outcome alone;
the predicates below name those classifications for the statements. -/

/-- The per-node test of `get_simple_object_copies`: a returned truthy
response counts as a copy. -/
def simple_pred (probe : Node → HeadResult) (node : Node) : Bool :=
  match probe node with
  | HeadResult.ret r => py_truthy r
  | HeadResult.exc _ => false

/-- The per-node test of `get_nodes_with_object`: a returned non-`None`
response marks the node as holding the object. -/
def with_pred (probe : Node → HeadResult) (node : Node) : Bool :=
  match probe node with
  | HeadResult.ret r => r.isSome
  | HeadResult.exc _ => false

/-- The per-node test of `get_nodes_without_object`: a returned `None`,
or a raised error matching `OBJECT_NOT_FOUND`, marks the node as lacking
the object. -/
def without_pred (probe : Node → HeadResult) (node : Node) : Bool :=
  match probe node with
  | HeadResult.ret r => r.isNone
  | HeadResult.exc e => error_matches_status e OBJECT_NOT_FOUND

/-- Whether an `Except` outcome is the raised-exception case. -/
def except_is_error {α : Type} : Except Err α → Bool
  | Except.ok _ => false
  | Except.error _ => true

/-! ## Characterization lemmas -/

theorem get_simple_object_copies_eq_countP (probe : Node → HeadResult)
    (l : List Node) :
    get_simple_object_copies probe l = l.countP (simple_pred probe) := by
  induction l with
  | nil => rfl
  | cons node rest ih =>
    cases hp : probe node with
    | ret r =>
      cases hr : py_truthy r <;>
        simp [get_simple_object_copies, List.countP_cons, simple_pred, hp, hr, ih]
    | exc e => simp [get_simple_object_copies, List.countP_cons, simple_pred, hp, ih]

theorem nodes_with_scan_eq_filter (probe : Node → HeadResult)
    (l : List Node) :
    nodes_with_scan probe l = l.filter (with_pred probe) := by
  induction l with
  | nil => rfl
  | cons node rest ih =>
    cases hp : probe node with
    | ret r =>
      cases hr : r.isSome <;>
        simp [nodes_with_scan, List.filter_cons, with_pred, hp, hr, ih]
    | exc e => simp [nodes_with_scan, List.filter_cons, with_pred, hp, ih]

theorem simple_copies_trace_eq (probe : Node → HeadResult) (l : List Node) :
    simple_copies_trace probe l = l := by
  induction l with
  | nil => rfl
  | cons node rest ih =>
    cases hp : probe node <;> simp [simple_copies_trace, hp, ih]

theorem nodes_with_trace_eq (probe : Node → HeadResult) (netmap : List Node)
    (skip_nodes : Option (List Node)) :
    nodes_with_trace probe netmap skip_nodes = nodes_to_search netmap skip_nodes := by
  unfold nodes_with_trace
  exact simple_copies_trace_eq probe _

theorem nodes_to_search_eq_filter (netmap : List Node) (sk : List Node) :
    nodes_to_search netmap (some sk) =
      netmap.filter (fun n => decide (n ∉ sk)) := by
  unfold nodes_to_search
  cases hsk : sk.isEmpty with
  | true =>
    have : sk = [] := List.isEmpty_iff.mp hsk
    subst this
    simp
  | false => simp [hsk]

theorem get_nodes_without_object_ok (probe : Node → HeadResult)
    (l : List Node) (h : ∀ n ∈ l, is_hard_error (probe n) = false) :
    get_nodes_without_object probe l =
      Except.ok (l.filter (without_pred probe)) := by
  induction l with
  | nil => rfl
  | cons node rest ih =>
    have hnode : is_hard_error (probe node) = false := h node (by simp)
    have hrest : ∀ n ∈ rest, is_hard_error (probe n) = false :=
      fun n hn => h n (List.mem_cons_of_mem _ hn)
    have ihr := ih hrest
    cases hp : probe node with
    | ret r =>
      cases r with
      | none => simp [get_nodes_without_object, hp, ihr, List.filter_cons, without_pred]
      | some d => simp [get_nodes_without_object, hp, ihr, List.filter_cons, without_pred]
    | exc e =>
      rw [hp] at hnode
      have hm : error_matches_status e OBJECT_NOT_FOUND = true := by
        cases hem : error_matches_status e OBJECT_NOT_FOUND with
        | true => rfl
        | false => simp [is_hard_error, hem] at hnode
      simp [get_nodes_without_object, hp, hm, ihr, List.filter_cons, without_pred]

theorem get_nodes_without_object_hard_error (probe : Node → HeadResult)
    (l : List Node) (n : Node) (hn : n ∈ l)
    (hh : is_hard_error (probe n) = true) :
    except_is_error (get_nodes_without_object probe l) = true := by
  induction l with
  | nil => cases hn
  | cons node rest ih =>
    cases hp : probe node with
    | ret r =>
      have hn2 : n ∈ rest := by
        rcases List.mem_cons.mp hn with h1 | h1
        · subst h1
          rw [hp] at hh
          simp [is_hard_error] at hh
        · exact h1
      have := ih hn2
      simp only [get_nodes_without_object, hp]
      cases hres : get_nodes_without_object probe rest with
      | ok res => rw [hres] at this; simp [except_is_error] at this
      | error e => simp [except_is_error]
    | exc e0 =>
      cases hm : error_matches_status e0 OBJECT_NOT_FOUND with
      | true =>
        have hn2 : n ∈ rest := by
          rcases List.mem_cons.mp hn with h1 | h1
          · subst h1
            rw [hp] at hh
            simp [is_hard_error, hm] at hh
          · exact h1
        have := ih hn2
        simp only [get_nodes_without_object, hp, hm, if_true]
        cases hres : get_nodes_without_object probe rest with
        | ok res => rw [hres] at this; simp [except_is_error] at this
        | error e => simp [except_is_error]
      | false =>
        simp [get_nodes_without_object, hp, hm, except_is_error]

theorem nodes_without_trace_eq (probe : Node → HeadResult) (l : List Node)
    (h : ∀ n ∈ l, is_hard_error (probe n) = false) :
    nodes_without_trace probe l = l := by
  induction l with
  | nil => rfl
  | cons node rest ih =>
    have hnode : is_hard_error (probe node) = false := h node (by simp)
    have hrest : ∀ n ∈ rest, is_hard_error (probe n) = false :=
      fun n hn => h n (List.mem_cons_of_mem _ hn)
    cases hp : probe node with
    | ret r => simp [nodes_without_trace, hp, ih hrest]
    | exc e =>
      rw [hp] at hnode
      have hm : error_matches_status e OBJECT_NOT_FOUND = true := by
        cases hem : error_matches_status e OBJECT_NOT_FOUND with
        | true => rfl
        | false => simp [is_hard_error, hem] at hnode
      simp [nodes_without_trace, hp, hm, ih hrest]

theorem get_nodes_without_object_ok_no_hard_error (probe : Node → HeadResult)
    (l : List Node) (res : List Node)
    (hok : get_nodes_without_object probe l = Except.ok res) :
    ∀ n ∈ l, is_hard_error (probe n) = false := by
  intro n hn
  cases hb : is_hard_error (probe n) with
  | false => rfl
  | true =>
    have := get_nodes_without_object_hard_error probe l n hn hb
    rw [hok] at this
    simp [except_is_error] at this

/-! ## Concrete fixtures for witnesses and counterexamples -/

/-- A probe error not classified as `OBJECT_NOT_FOUND`. -/
def hard_err : Err :=
  { status := Status.other "connection refused", msg := "connection refused" }

/-- A probe behavior where node `n1` fails with a non-not-found error and
every other node returns object metadata. -/
def cex_probe : Node → HeadResult := fun node =>
  if node = "n1" then HeadResult.exc hard_err
  else HeadResult.ret (some [("objectID", "qwe")])

/-- A probe behavior returning an empty (falsy but non-`None`) metadata
dict on every node. -/
def empty_response_probe : Node → HeadResult := fun _ =>
  HeadResult.ret (some [])

/-- A probe behavior with all three benign outcomes: `n1` holds the
object, `n2` answers `None`, every other node raises a not-found error. -/
def part_probe : Node → HeadResult := fun node =>
  if node = "n1" then HeadResult.ret (some [("objectID", "qwe")])
  else if node = "n2" then HeadResult.ret none
  else HeadResult.exc { status := Status.object_not_found, msg := "object not found" }

/-- A three-node network map used by the witnesses. -/
def netmap3 : List Node := ["n1", "n2", "n3"]

/-- A session token for the authorization witness: created against
`nodeA`, valid on `[0, 100]`, authorizing PUT and DELETE. -/
def c1_token : SessionToken :=
  { issuer := "owner", validFrom := 0, validTo := 100,
    ops := [Operation.put, Operation.delete], origin := "nodeA" }

/-- An object address for the authorization witness. -/
def c1_obj : ObjectAddress := { cid := "cid", oid := "oid" }

/-! ## Claim theorems -/

/-- C1: for a session token created against node A and presented with a
PUT or DELETE it authorizes inside its validity window, the guard allows
the operation at node A and denies it with reason `SessionNotFound` at
every other node B; the container's placement set (quantified here but
absent from the guard's inputs) plays no role in either decision. -/
theorem session_token_origin_gates_decision
    (t : SessionToken) (now : Nat) (nodeB : Node) (obj : ObjectAddress)
    (_placement : List Node) (op : Operation)
    (hval : t.validFrom ≤ now ∧ now ≤ t.validTo)
    (_hop : op = Operation.put ∨ op = Operation.delete)
    (hops : op ∈ t.ops) (hB : nodeB ≠ t.origin) :
    Authorize t t.origin op obj now = AuthResult.allow ∧
      Authorize t nodeB op obj now = AuthResult.deny DenyReason.sessionNotFound := by
  obtain ⟨h1, h2⟩ := hval
  have hnla : ¬ now < t.validFrom := Nat.not_lt.mpr h1
  have hnlb : ¬ t.validTo < now := Nat.not_lt.mpr h2
  constructor
  · simp [Authorize, hnla, hnlb, hops, has_token_record]
  · simp [Authorize, hnla, hnlb, hops, has_token_record, hB]

/-- Witness for C1 at a concrete token, time, object and node pair. -/
theorem session_token_origin_gates_decision_witness :
    Authorize c1_token c1_token.origin Operation.put c1_obj 5 = AuthResult.allow ∧
      Authorize c1_token "nodeB" Operation.put c1_obj 5 =
        AuthResult.deny DenyReason.sessionNotFound :=
  session_token_origin_gates_decision c1_token 5 "nodeB" c1_obj []
    Operation.put (by decide) (Or.inl rfl) (by decide) (by decide)

/-- C5: the group name is the literal "SPB" for the locode "RU LED", and
for any other locode value that splits into at least two whitespace
tokens it is the second token. -/
theorem locode_group_special_case_and_second_token
    (v t0 t1 : String) (rest : List String)
    (hsplit : py_split v = t0 :: t1 :: rest) (hne : v ≠ "RU LED") :
    locode_group "RU LED" = some "SPB" ∧ locode_group v = some t1 := by
  refine ⟨by simp [locode_group], ?_⟩
  simp [locode_group, hne, hsplit]

/-- Witness for C5 at the locode "DE BER". -/
theorem locode_group_special_case_and_second_token_witness :
    locode_group "RU LED" = some "SPB" ∧ locode_group "DE BER" = some "BER" :=
  locode_group_special_case_and_second_token "DE BER" "DE" "BER" []
    (by decide) (by decide)

/-- C6: the placement-policy text the test passes to container creation
is exactly the grammar rendering
`REP 1 IN LOC_L_PLACE CBF 1 SELECT 1 FROM LOC_L AS LOC_L_PLACE
FILTER "UN-LOCODE" EQ "V" AS LOC_L` for group name L and locode V. -/
theorem placement_policy_matches_grammar (l v : String) :
    placement_policy l v =
      policy_grammar_render 1 ("LOC_" ++ l ++ "_PLACE") 1 1 ("LOC_" ++ l)
        ("LOC_" ++ l ++ "_PLACE") "UN-LOCODE" v ("LOC_" ++ l) := by
  have h1 : toString (1 : Nat) = "1" := rfl
  have h2 : ∀ y : String, "REP 1 IN " ++ ("LOC_" ++ y) = "REP 1 IN LOC_" ++ y := by
    intro y
    rw [← String.append_assoc]
    exact congrArg (fun s => s ++ y) (by decide)
  have h3 : ∀ y : String,
      "_PLACE CBF 1 SELECT 1 FROM " ++ ("LOC_" ++ y) =
        "_PLACE CBF 1 SELECT 1 FROM LOC_" ++ y := by
    intro y
    rw [← String.append_assoc]
    exact congrArg (fun s => s ++ y) (by decide)
  have h4 : ∀ y : String, " AS " ++ ("LOC_" ++ y) = " AS LOC_" ++ y := by
    intro y
    rw [← String.append_assoc]
    exact congrArg (fun s => s ++ y) (by decide)
  have h5 : ∀ y : String, "\" AS " ++ ("LOC_" ++ y) = "\" AS LOC_" ++ y := by
    intro y
    rw [← String.append_assoc]
    exact congrArg (fun s => s ++ y) (by decide)
  have h6 : ∀ y : String, " " ++ ("AS LOC_" ++ y) = " AS LOC_" ++ y := by
    intro y
    rw [← String.append_assoc]
    exact congrArg (fun s => s ++ y) (by decide)
  have h7 : ∀ y : String,
      "_PLACE FILTER \"UN-LOCODE\" " ++ ("EQ \"" ++ y) =
        "_PLACE FILTER \"UN-LOCODE\" EQ \"" ++ y := by
    intro y
    rw [← String.append_assoc]
    exact congrArg (fun s => s ++ y) (by decide)
  simp [placement_policy, policy_grammar_render, h1, String.append_assoc,
    h2, h3, h4, h5, h6, h7]

/-- Counterexample to C2: with a non-not-found probe failure at node
`n1`, `get_simple_object_copies` does not abort — it continues past the
failure, probes `n2` as well, and returns the count 1; likewise
`get_nodes_with_object` completes and returns `["n2"]`. -/
theorem all_scans_abort_on_hard_error_cex :
    is_hard_error (cex_probe "n1") = true ∧
    get_simple_object_copies cex_probe ["n1", "n2"] = 1 ∧
    simple_copies_trace cex_probe ["n1", "n2"] = ["n1", "n2"] ∧
    get_nodes_with_object cex_probe ["n1", "n2"] none = ["n2"] := by
  decide

/-- C2 (amended): a non-not-found probe failure at some node of the map
is a hard error aborting the scan for `get_nodes_without_object` only;
`get_simple_object_copies` and `get_nodes_with_object` recover every
probe failure locally and still probe every node of the map. -/
theorem only_nodes_without_object_aborts_on_hard_error
    (probe : Node → HeadResult) (netmap : List Node) (n : Node)
    (hn : n ∈ netmap) (hh : is_hard_error (probe n) = true) :
    except_is_error (get_nodes_without_object probe netmap) = true ∧
    simple_copies_trace probe netmap = netmap ∧
    nodes_with_trace probe netmap none = netmap :=
  ⟨get_nodes_without_object_hard_error probe netmap n hn hh,
   simple_copies_trace_eq probe netmap,
   (nodes_with_trace_eq probe netmap none).trans rfl⟩

/-- Witness for the amended C2 at a concrete two-node map. -/
theorem only_nodes_without_object_aborts_on_hard_error_witness :
    except_is_error (get_nodes_without_object cex_probe ["n1", "n2"]) = true ∧
    simple_copies_trace cex_probe ["n1", "n2"] = ["n1", "n2"] ∧
    nodes_with_trace cex_probe ["n1", "n2"] none = ["n1", "n2"] :=
  only_nodes_without_object_aborts_on_hard_error cex_probe ["n1", "n2"] "n1"
    (by decide) (by decide)

/-- C3: when no probe fails with a non-not-found error and no nodes are
skipped, the list returned by `get_nodes_with_object` and the list
returned by `get_nodes_without_object` partition the node set exactly:
no node is in both, and every node of the map is in exactly one. -/
theorem nodes_with_without_object_partition
    (probe : Node → HeadResult) (netmap res : List Node) (n : Node)
    (h : ∀ m ∈ netmap, is_hard_error (probe m) = false)
    (hres : get_nodes_without_object probe netmap = Except.ok res) :
    ¬ (n ∈ get_nodes_with_object probe netmap none ∧ n ∈ res) ∧
      (n ∈ netmap ↔ n ∈ get_nodes_with_object probe netmap none ∨ n ∈ res) := by
  have hres2 : res = netmap.filter (without_pred probe) := by
    rw [get_nodes_without_object_ok probe netmap h] at hres
    exact (Except.ok.inj hres).symm
  have hwith : get_nodes_with_object probe netmap none =
      netmap.filter (with_pred probe) :=
    nodes_with_scan_eq_filter probe netmap
  have hcomp : ∀ m ∈ netmap, with_pred probe m = !(without_pred probe m) := by
    intro m hm
    have hh := h m hm
    cases hp : probe m with
    | ret r => cases r <;> simp [with_pred, without_pred, hp]
    | exc e =>
      rw [hp] at hh
      have hm2 : error_matches_status e OBJECT_NOT_FOUND = true := by
        cases hem : error_matches_status e OBJECT_NOT_FOUND with
        | true => rfl
        | false => simp [is_hard_error, hem] at hh
      simp [with_pred, without_pred, hp, hm2]
  subst hres2
  rw [hwith]
  constructor
  · rintro ⟨hm1, hm2⟩
    obtain ⟨hn1, hp1⟩ := List.mem_filter.mp hm1
    obtain ⟨_, hp2⟩ := List.mem_filter.mp hm2
    rw [hcomp n hn1, hp2] at hp1
    simp at hp1
  · constructor
    · intro hn
      cases hwp : without_pred probe n with
      | true => exact Or.inr (List.mem_filter.mpr ⟨hn, hwp⟩)
      | false =>
        refine Or.inl (List.mem_filter.mpr ⟨hn, ?_⟩)
        rw [hcomp n hn, hwp]
        rfl
    · rintro (h1 | h1) <;> exact (List.mem_filter.mp h1).1

/-- Witness for C3 on a three-node map with all benign outcomes. -/
theorem nodes_with_without_object_partition_witness :
    ¬ ("n2" ∈ get_nodes_with_object part_probe netmap3 none ∧
        "n2" ∈ ["n2", "n3"]) ∧
      ("n2" ∈ netmap3 ↔
        "n2" ∈ get_nodes_with_object part_probe netmap3 none ∨
          "n2" ∈ ["n2", "n3"]) :=
  nodes_with_without_object_partition part_probe netmap3 ["n2", "n3"] "n2"
    (by decide) (by rfl)

/-- C4: a complex object's copy count is the simple copy count of its
resolved last part, and when no last part resolves (or it resolves to a
falsy empty id) the call fails with the assertion error instead of
returning a count. -/
theorem complex_object_copies_eq_last_part_copies
    (glo glo2 : String → Option String) (probe : String → Node → HeadResult)
    (netmap : List Node) (cid oid lastOid : String)
    (hl : glo oid = some lastOid) (hne : lastOid ≠ "")
    (h2 : glo2 oid = none ∨ glo2 oid = some "") :
    get_complex_object_copies glo probe netmap cid oid =
      Except.ok (get_simple_object_copies (probe lastOid) netmap) ∧
    get_complex_object_copies glo2 probe netmap cid oid =
      Except.error (assertion_error cid oid) := by
  constructor
  · simp [get_complex_object_copies, hl, hne]
  · rcases h2 with h2 | h2 <;> simp [get_complex_object_copies, h2]

/-- Witness for C4 with a resolver returning a last part and one
returning none. -/
theorem complex_object_copies_eq_last_part_copies_witness :
    get_complex_object_copies (fun _ => some "lastpart")
        (fun _ => part_probe) netmap3 "cid" "oid" =
      Except.ok (get_simple_object_copies part_probe netmap3) ∧
    get_complex_object_copies (fun _ => none)
        (fun _ => part_probe) netmap3 "cid" "oid" =
      Except.error (assertion_error "cid" "oid") :=
  complex_object_copies_eq_last_part_copies (fun _ => some "lastpart")
    (fun _ => none) (fun _ => part_probe) netmap3 "cid" "oid" "lastpart"
    rfl (by decide) (Or.inl rfl)

/-- C7: in `get_nodes_without_object`, a probe returning `None` and a
probe raising an `OBJECT_NOT_FOUND` error are the same outcome: the node
is in the returned list of nodes not storing the object. -/
theorem nodes_without_object_none_and_not_found_equivalent
    (probe : Node → HeadResult) (netmap res : List Node) (n : Node) (e : Err)
    (hok : get_nodes_without_object probe netmap = Except.ok res)
    (hn : n ∈ netmap)
    (hout : probe n = HeadResult.ret none ∨
      (probe n = HeadResult.exc e ∧
        error_matches_status e OBJECT_NOT_FOUND = true)) :
    n ∈ res := by
  have h := get_nodes_without_object_ok_no_hard_error probe netmap res hok
  rw [get_nodes_without_object_ok probe netmap h] at hok
  have hres : res = netmap.filter (without_pred probe) := (Except.ok.inj hok).symm
  subst hres
  refine List.mem_filter.mpr ⟨hn, ?_⟩
  rcases hout with h1 | ⟨h1, h2⟩
  · simp [without_pred, h1]
  · simp [without_pred, h1, h2]

/-- Witness for C7: node `n3` raises a not-found error and lands in the
same list as node `n2`, whose probe returned `None`. -/
theorem nodes_without_object_none_and_not_found_equivalent_witness :
    "n3" ∈ ["n2", "n3"] :=
  nodes_without_object_none_and_not_found_equivalent part_probe netmap3
    ["n2", "n3"] "n3" { status := Status.object_not_found, msg := "object not found" }
    (by rfl) (by decide) (Or.inr ⟨by decide, by decide⟩)

/-- Counterexample to C8: with a non-not-found probe failure at node
`n1`, `get_nodes_without_object` stops probing at `n1` — node `n2` never
receives a probe — so not every copy-verification scan probes every node
of the map. -/
theorem scan_probes_every_node_cex :
    is_hard_error (cex_probe "n1") = true ∧
    nodes_without_trace cex_probe ["n1", "n2"] = ["n1"] ∧
    ¬ "n2" ∈ nodes_without_trace cex_probe ["n1", "n2"] := by
  decide

/-- C8 (amended): when no probe fails with a non-not-found error, every
scan issues exactly one direct HEAD probe to every node of the map, and
each result is a per-node classification (a count/filter of a predicate
of that node's probe outcome alone, with no ordering dependency);
without that proviso `get_nodes_without_object` stops at the first hard
failure. -/
theorem scans_probe_each_node_once_independently
    (probe : Node → HeadResult) (netmap : List Node)
    (h : ∀ n ∈ netmap, is_hard_error (probe n) = false) :
    simple_copies_trace probe netmap = netmap ∧
    nodes_with_trace probe netmap none = netmap ∧
    nodes_without_trace probe netmap = netmap ∧
    get_simple_object_copies probe netmap = netmap.countP (simple_pred probe) ∧
    get_nodes_with_object probe netmap none = netmap.filter (with_pred probe) ∧
    get_nodes_without_object probe netmap =
      Except.ok (netmap.filter (without_pred probe)) :=
  ⟨simple_copies_trace_eq probe netmap,
   (nodes_with_trace_eq probe netmap none).trans rfl,
   nodes_without_trace_eq probe netmap h,
   get_simple_object_copies_eq_countP probe netmap,
   nodes_with_scan_eq_filter probe netmap,
   get_nodes_without_object_ok probe netmap h⟩

/-- Witness for the amended C8 on a three-node map with benign
outcomes. -/
theorem scans_probe_each_node_once_independently_witness :
    simple_copies_trace part_probe netmap3 = netmap3 ∧
    nodes_with_trace part_probe netmap3 none = netmap3 ∧
    nodes_without_trace part_probe netmap3 = netmap3 ∧
    get_simple_object_copies part_probe netmap3 =
      netmap3.countP (simple_pred part_probe) ∧
    get_nodes_with_object part_probe netmap3 none =
      netmap3.filter (with_pred part_probe) ∧
    get_nodes_without_object part_probe netmap3 =
      Except.ok (netmap3.filter (without_pred part_probe)) :=
  scans_probe_each_node_once_independently part_probe netmap3 (by decide)

/-- Counterexample to C9: a probe returning an empty (falsy but
non-`None`) metadata dict is counted by `get_nodes_with_object`
(`res is not None`) but not by `get_simple_object_copies`
(`if response:`), so the count and the list length disagree. -/
theorem copies_count_vs_nodes_with_length_cex :
    empty_response_probe "n1" = HeadResult.ret (some []) ∧
    ¬ (get_simple_object_copies empty_response_probe ["n1"] =
        (get_nodes_with_object empty_response_probe ["n1"] none).length) := by
  decide

/-- A probe outcome whose returned metadata, when present, is non-empty:
on such outcomes Python truthiness and the `is not None` test agree. -/
def response_nonempty (probe : Node → HeadResult) (node : Node) : Bool :=
  match probe node with
  | HeadResult.ret (some d) => !d.isEmpty
  | HeadResult.ret none => true
  | HeadResult.exc _ => true

/-- C9 (amended): whenever every non-`None` probe response is a
non-empty (truthy) dict, `get_simple_object_copies` equals the length of
the list `get_nodes_with_object` returns with no skipped nodes. -/
theorem copies_count_eq_nodes_with_length
    (probe : Node → HeadResult) (netmap : List Node)
    (h : ∀ n ∈ netmap, response_nonempty probe n = true) :
    get_simple_object_copies probe netmap =
      (get_nodes_with_object probe netmap none).length := by
  rw [get_simple_object_copies_eq_countP]
  have hwith : get_nodes_with_object probe netmap none =
      netmap.filter (with_pred probe) :=
    nodes_with_scan_eq_filter probe netmap
  rw [hwith, ← List.countP_eq_length_filter]
  refine List.countP_congr ?_
  intro n hn
  have heq : simple_pred probe n = with_pred probe n := by
    have hne := h n hn
    cases hp : probe n with
    | ret r =>
      cases r with
      | none => simp [simple_pred, with_pred, hp, py_truthy]
      | some d =>
        simp only [response_nonempty, hp] at hne
        simp [simple_pred, with_pred, hp, py_truthy, hne]
    | exc e => simp [simple_pred, with_pred, hp]
  rw [heq]

/-- Witness for the amended C9 on the three-node map. -/
theorem copies_count_eq_nodes_with_length_witness :
    get_simple_object_copies part_probe netmap3 =
      (get_nodes_with_object part_probe netmap3 none).length :=
  copies_count_eq_nodes_with_length part_probe netmap3 (by decide)

/-- C10: `get_nodes_with_object` never probes and never returns a node
of `skip_nodes`: its probe trace is exactly the netmap with the skipped
nodes removed (in map order), and its result is a sublist of that. -/
theorem nodes_with_object_respects_skip_nodes
    (probe : Node → HeadResult) (netmap sk : List Node) (s : Node)
    (hs : s ∈ sk) :
    List.Sublist (get_nodes_with_object probe netmap (some sk))
        (netmap.filter (fun n => decide (n ∉ sk))) ∧
    nodes_with_trace probe netmap (some sk) =
      netmap.filter (fun n => decide (n ∉ sk)) ∧
    ¬ s ∈ nodes_with_trace probe netmap (some sk) ∧
    ¬ s ∈ get_nodes_with_object probe netmap (some sk) := by
  have hsearch := nodes_to_search_eq_filter netmap sk
  have htrace : nodes_with_trace probe netmap (some sk) =
      netmap.filter (fun n => decide (n ∉ sk)) := by
    rw [nodes_with_trace_eq, hsearch]
  have hsub : List.Sublist (get_nodes_with_object probe netmap (some sk))
      (netmap.filter (fun n => decide (n ∉ sk))) := by
    unfold get_nodes_with_object
    rw [hsearch, nodes_with_scan_eq_filter]
    exact List.filter_sublist _
  have hnotmem : ¬ s ∈ netmap.filter (fun n => decide (n ∉ sk)) := by
    intro hmem
    have hdec := (List.mem_filter.mp hmem).2
    simp at hdec
    exact hdec hs
  exact ⟨hsub, htrace, by rw [htrace]; exact hnotmem,
    fun hm => hnotmem (hsub.mem hm)⟩

/-- Witness for C10: skipping node `n2` on the three-node map. -/
theorem nodes_with_object_respects_skip_nodes_witness :
    List.Sublist (get_nodes_with_object part_probe netmap3 (some ["n2"]))
        (netmap3.filter (fun n => decide (n ∉ ["n2"]))) ∧
    nodes_with_trace part_probe netmap3 (some ["n2"]) =
      netmap3.filter (fun n => decide (n ∉ ["n2"])) ∧
    ¬ "n2" ∈ nodes_with_trace part_probe netmap3 (some ["n2"]) ∧
    ¬ "n2" ∈ get_nodes_with_object part_probe netmap3 (some ["n2"]) :=
  nodes_with_object_respects_skip_nodes part_probe netmap3 ["n2"] "n2"
    (by decide)

end NeofsTestcases
